import Mathlib

/-!
Shallow embedding of the audiobook-generator backend core
(`src/backend/tts_service.py` and `src/backend/gemini_service.py`)
and verification of the frozen claims about it.

Modelling conventions:
* Python numbers (int/float) are modelled as rationals (`ℚ`); the code only
  compares, adds, multiplies and divides them.
* Python strings are Lean `String`s; `len(s)` is `s.length`,
  `s[a:b]` is take/drop on `s.data`.
* A Python `dict` argument is an association list `List (String × PyVal)`
  looked up with `List.lookup` (first match; Python dict keys are unique).
* Exceptions become `Except PyErr …`.  Each distinct `raise` site gets one
  `ErrMsg` constructor carrying the data interpolated into the Python
  message; the comment at each constructor quotes the message.
* `logging`, `tempfile` writes, `asyncio.sleep` and the `file_path` field of
  the audio result (which depends on the temp directory and Python's
  string hash) have no observable effect on any claim and are not modelled.
-/

/-- A Python runtime value as far as the validated dict entries inspect it:
`isinstance(v, (int, float))`, `isinstance(v, str)`, `isinstance(v, list)`,
or anything else. -/
inductive PyVal where
  | num (q : ℚ)
  | str (s : String)
  | vlist (xs : List String)
  | other
  deriving DecidableEq, Repr

/-- One constructor per `raise` site modelled from the source; the Python
message text is quoted at each constructor. -/
inductive ErrMsg where
  /-- "Text must be a non-empty string"  (tts_service.generate_audio) -/
  | textEmptyTTS
  /-- "Voice ID must be a non-empty string" (generate_audio / customize_voice) -/
  | voiceIdEmpty
  /-- "Text is too long (max 10000 characters)" -/
  | textTooLongTTS
  /-- "Voice ID 'id' not found. Available voices: […]" -/
  | voiceNotFound (voice_id : String)
  /-- "Pitch must be a number" -/
  | pitchNotNumber
  /-- "Pitch must be between -10.0 and 10.0" -/
  | pitchOutOfRange
  /-- "Speed must be a number" -/
  | speedNotNumber
  /-- "Speed must be between 0.5 and 2.0" -/
  | speedOutOfRange
  /-- "Emotion must be a string" -/
  | emotionNotString
  /-- "Emotion must be one of: […]" -/
  | emotionInvalid
  /-- "Emphasis must be a list of words" -/
  | emphasisNotList
  /-- "Customizations must be a non-empty dictionary" (customize_voice) -/
  | customizationsEmpty
  /-- "Base voice ID 'id' not found. Available voices: […]" (customize_voice) -/
  | baseVoiceNotFound (voice_id : String)
  /-- "Text cannot be empty" (gemini_service._validate_text_input) -/
  | textEmptyGemini
  /-- "Text is too long (n chars). Maximum is 1,000,000 characters." -/
  | textTooLongGemini (n : Nat)
  /-- "Character list cannot be empty" (identify_dialogue) -/
  | charListEmpty
  deriving DecidableEq, Repr

/-- A raised Python exception.  `valueError` is the spec's
InvalidInputError / NotFoundError / InvalidParameterError family (the code
raises `ValueError` at all those sites); `ttsProcessing` is
`TTSProcessingError` ("Failed to generate audio: " + str(inner)), the spec's
SynthesisError. -/
inductive PyErr where
  | valueError (m : ErrMsg)
  | ttsProcessing (inner : ErrMsg)
  deriving DecidableEq, Repr

/-- The dict returned by `KokoroTTSService._process_params`: defaults applied,
all values validated.  This is the spec's SynthesisParameters. -/
structure ProcessedParams where
  pitch : ℚ
  speed : ℚ
  emotion : String
  emphasis : List String
  deriving DecidableEq, Repr

/-- Emphasis stage of `_process_params` (`# Process emphasis`). -/
def process_params_emphasis (params : List (String × PyVal)) (pitch speed : ℚ)
    (emotion : String) : Except PyErr ProcessedParams :=
  match params.lookup "emphasis" with
  | some (.vlist xs) =>
      .ok { pitch := pitch, speed := speed, emotion := emotion, emphasis := xs }
  | some _ => .error (.valueError .emphasisNotList)
  | none => .ok { pitch := pitch, speed := speed, emotion := emotion, emphasis := [] }

/-- Emotion stage of `_process_params` (`# Process emotion`). -/
def process_params_emotion (params : List (String × PyVal)) (pitch speed : ℚ) :
    Except PyErr ProcessedParams :=
  match params.lookup "emotion" with
  | some (.str e) =>
      if e ∈ ["neutral", "happy", "sad", "angry"] then
        process_params_emphasis params pitch speed e
      else .error (.valueError .emotionInvalid)
  | some _ => .error (.valueError .emotionNotString)
  | none => process_params_emphasis params pitch speed "neutral"

/-- Speed stage of `_process_params` (`# Process speed`). -/
def process_params_speed (params : List (String × PyVal)) (pitch : ℚ) :
    Except PyErr ProcessedParams :=
  match params.lookup "speed" with
  | some (.num s) =>
      -- the Python bounds 0.5 and 2.0; `mkRat 1 2` is the rational 1/2
      if s < mkRat 1 2 ∨ 2 < s then .error (.valueError .speedOutOfRange)
      else process_params_emotion params pitch s
  | some _ => .error (.valueError .speedNotNumber)
  | none => process_params_emotion params pitch 1

/-- `KokoroTTSService._process_params` (tts_service.py lines 182-240),
transcribed branch for branch.  Each recognized key is validated in order
pitch, speed, emotion, emphasis (each stage is its own definition above);
unrecognized keys are ignored. -/
def process_params (params : List (String × PyVal)) : Except PyErr ProcessedParams :=
  match params.lookup "pitch" with
  | some (.num p) =>
      if p < -10 ∨ 10 < p then .error (.valueError .pitchOutOfRange)
      else process_params_speed params p
  | some _ => .error (.valueError .pitchNotNumber)
  | none => process_params_speed params 0

/-- Word count of `text.split()`: the number of maximal nonempty runs of
non-whitespace characters (Python `str.split` with no separator). -/
def wordRuns : List Char → Bool → Nat
  | [], _ => 0
  | c :: rest, inWord =>
      if c.isWhitespace then wordRuns rest false
      else (if inWord then 0 else 1) + wordRuns rest true

/-- `len(text.split())` for a `String`. -/
def wordCount (text : String) : Nat := wordRuns text.data false

/-- A voice dict in `KokoroTTSService.available_voices`.  The four built-in
dicts carry only id/name/gender/language; the keys added by
`customize_voice` are modelled with defaults `false` / `none` / `[]` for
built-ins. -/
structure Voice where
  id : String
  name : String
  gender : String
  language : String
  is_custom : Bool
  base_voice_id : Option String
  customizations : List (String × PyVal)
  deriving DecidableEq, Repr

/-- The four voices installed by `KokoroTTSService._load_model` (the mock
model always loads, so every public entry point sees this seed list). -/
def initial_voices : List Voice :=
  [ { id := "voice_1", name := "Female 1", gender := "female", language := "en-US",
      is_custom := false, base_voice_id := none, customizations := [] },
    { id := "voice_2", name := "Male 1", gender := "male", language := "en-US",
      is_custom := false, base_voice_id := none, customizations := [] },
    { id := "voice_3", name := "Female 2", gender := "female", language := "en-US",
      is_custom := false, base_voice_id := none, customizations := [] },
    { id := "voice_4", name := "Male 2", gender := "male", language := "en-US",
      is_custom := false, base_voice_id := none, customizations := [] } ]

/-- The caller-observable fields of the dict returned by `generate_audio`
(`file_path`, which embeds the temp dir and Python's `hash(text)`, is not
modelled; no claim mentions it). -/
structure AudioResult where
  duration : ℚ
  format : String
  sample_rate : Nat
  text_length : Nat
  voice_id : String
  parameters : ProcessedParams
  deriving DecidableEq, Repr

/-- `KokoroTTSService.generate_audio` (tts_service.py lines 88-180) over a
given `available_voices` list.  Gate order as in the source: empty text,
empty voice id, text length, (model load — the mock always succeeds), voice
lookup, then the `try` block in which the `ValueError` raised by
`_process_params` is caught by the blanket `except Exception` and re-raised
as `TTSProcessingError("Failed to generate audio: " + str(e))`. -/
def generate_audio (voices : List Voice) (text : String) (voice_id : String)
    (params : List (String × PyVal)) : Except PyErr AudioResult :=
  if text = "" then .error (.valueError .textEmptyTTS)
  else if voice_id = "" then .error (.valueError .voiceIdEmpty)
  else if 10000 < text.length then .error (.valueError .textTooLongTTS)
  else if ¬ voices.any (fun v => v.id == voice_id) then
    .error (.valueError (.voiceNotFound voice_id))
  else
    match process_params params with
    | .error e =>
        -- the blanket `except Exception` wraps the parameter ValueError
        .error (.ttsProcessing (match e with | .valueError m => m | .ttsProcessing m => m))
    | .ok pp =>
        .ok { duration := (wordCount text : ℚ) / 150 * (1 / pp.speed),
              format := "mp3", sample_rate := 24000,
              text_length := text.length, voice_id := voice_id, parameters := pp }

/-- Decimal digit character for `d < 10` (Python's rendering of a decimal
digit; the final catch-all is only reached for `d = 9` at our call sites,
which always pass `n % 10` or `n < 10`). -/
def digit (d : Nat) : Char :=
  match d with
  | 0 => '0' | 1 => '1' | 2 => '2' | 3 => '3' | 4 => '4'
  | 5 => '5' | 6 => '6' | 7 => '7' | 8 => '8' | _ => '9'

/-- Fuel-driven decimal rendering (structural recursion so that closed
terms evaluate); `fuel > n` always suffices since `n / 10 < n`. -/
def natReprAux : Nat → Nat → List Char
  | 0, _ => []
  | fuel + 1, n =>
      if n < 10 then [digit n]
      else natReprAux fuel (n / 10) ++ [digit (n % 10)]

/-- Decimal rendering of a natural number, most significant digit first:
Python's `str(n)` / f-string interpolation of a non-negative int. -/
def natRepr (n : Nat) : List Char := natReprAux (n + 1) n

/-- `str(n)` as a `String`. -/
def natStr (n : Nat) : String := String.mk (natRepr n)

/-- The id minted by `customize_voice`:
`f"custom_{voice_id}_{len(self.available_voices) + 1}"`. -/
def mkCustomId (base : String) (k : Nat) : String :=
  String.mk ("custom_".data ++ base.data ++ '_' :: natRepr k)

/-- `KokoroTTSService.customize_voice` (tts_service.py lines 259-331) over a
given `available_voices` list; returns the raised error or new id, together
with the updated voice list.  Checks in source order: empty voice id, empty
customizations dict, (model load — mock succeeds), base lookup; then builds
the new voice dict and appends it. -/
def customize_voice (voices : List Voice) (voice_id : String)
    (customizations : List (String × PyVal)) : Except PyErr String × List Voice :=
  if voice_id = "" then (.error (.valueError .voiceIdEmpty), voices)
  else if customizations = [] then (.error (.valueError .customizationsEmpty), voices)
  else
    match voices.find? (fun v => v.id == voice_id) with
    | none => (.error (.valueError (.baseVoiceNotFound voice_id)), voices)
    | some base =>
        let new_voice_id := mkCustomId voice_id (voices.length + 1)
        let new_voice : Voice :=
          { id := new_voice_id,
            name := match customizations.lookup "name" with
                    | some (.str s) => s
                    | some _ => "Customized " ++ base.name
                    | none => "Customized " ++ base.name,
            gender := base.gender, language := base.language,
            is_custom := true, base_voice_id := some voice_id,
            customizations := customizations }
        (.ok new_voice_id, voices ++ [new_voice])

/-- A sequence of `customize_voice` calls starting from the seeded catalog;
a failed call leaves the voice list unchanged. -/
def run_derives (reqs : List (String × List (String × PyVal))) : List Voice :=
  reqs.foldl (fun vs r => (customize_voice vs r.1 r.2).2) initial_voices

/-- `CharacterInfo` (gemini_service.py lines 32-87).  All fields of the
Python data class; `confidence` is a rational standing for the float. -/
structure CharacterInfo where
  name : String
  description : String
  dialogue_count : Nat
  confidence : ℚ
  is_narrator : Bool
  character_traits : List String
  gender : Option String
  age : Option String
  speaking_style : Option String
  voice_suggestions : List String
  deriving DecidableEq, Repr

/-- The keys of the dict produced by `CharacterInfo.to_dict`
(gemini_service.py lines 58-71), in source order. -/
def CharacterInfo.dictKeys (_ : CharacterInfo) : List String :=
  ["name", "description", "dialogue_count", "confidence", "is_narrator",
   "character_traits", "gender", "age", "speaking_style", "voice_suggestions"]

/-- `DialogueInfo` (gemini_service.py lines 89-128). -/
structure DialogueInfo where
  text : String
  character_name : String
  start_index : Nat
  end_index : Nat
  confidence : ℚ
  emotion : Option String
  deriving DecidableEq, Repr

/-- The character built for index `i` by
`GeminiService._mock_character_analysis` over a text of length `L`
(gemini_service.py lines 390-420); `CharacterInfo.from_dict` of the dict is
the identity on these fields since every key is present. -/
def mock_char (L i : Nat) : CharacterInfo :=
  if i = 0 then
    { name := "Narrator", description := "The narrator of the story",
      dialogue_count := (L / 500) * 3, confidence := (0.9 : ℚ) - i * (0.05 : ℚ),
      is_narrator := true, character_traits := ["observant", "descriptive"],
      gender := none, age := none, speaking_style := some "formal",
      voice_suggestions := [] }
  else
    { name := "Character " ++ natStr i,
      description := "A supporting character in the story",
      dialogue_count := (L / 500) * 1, confidence := (0.9 : ℚ) - i * (0.05 : ℚ),
      is_narrator := false, character_traits := ["trait1", "trait2"],
      gender := some (if i % 2 = 0 then "male" else "female"), age := some "adult",
      speaking_style := some "casual", voice_suggestions := [] }

/-- `GeminiService._mock_character_analysis` (gemini_service.py lines
384-426): `min(max(2, len(text) // 10000), 10)` characters. -/
def mock_character_analysis (L : Nat) : List CharacterInfo :=
  (List.range (min (max 2 (L / 10000)) 10)).map (mock_char L)

/-- `GeminiService.identify_characters` (gemini_service.py lines 213-267).
The two leading ifs are `_validate_text_input` (lines 193-211) inlined in
caller order.  With an API key the mocked `_make_api_request` routes
`analyzeCharacters` to `_mock_character_analysis(text)`; without a key the
same mock is called directly, so both branches produce the same roster. -/
def identify_characters (api_key : Option String) (text : String) :
    Except PyErr (List CharacterInfo) :=
  if text = "" then .error (.valueError .textEmptyGemini)
  else if 1000000 < text.length then .error (.valueError (.textTooLongGemini text.length))
  else
    match api_key with
    | some _ => .ok (mock_character_analysis text.length)
    | none => .ok (mock_character_analysis text.length)

/-- `num_dialogues` of `_mock_dialogue_analysis`:
`min(max(5, text_length // 5000), 50)`. -/
def num_dialogues_of (L : Nat) : Nat := min (max 5 (L / 5000)) 50

/-- `dialogue_length` (loop-invariant in the source):
`min(100, text_length // num_dialogues)`. -/
def dialogue_length_of (L : Nat) : Nat := min 100 (L / num_dialogues_of L)

/-- The skip `min(500, text_length // (num_dialogues * 2))`. -/
def skip_of (L : Nat) : Nat := min 500 (L / (num_dialogues_of L * 2))

/-- `["neutral", "happy", "sad", "angry"][k]` for `k = i % 4`. -/
def emo_cycle (k : Nat) : String :=
  match k with
  | 0 => "neutral" | 1 => "happy" | 2 => "sad" | _ => "angry"

/-- The name assigned to dialogue `i`:
`"Narrator" if i % 3 == 0 else f"Character {i % 3}"`. -/
def cycle_name (k : Nat) : String :=
  if k = 0 then "Narrator" else "Character " ++ natStr k

/-- Loop body of `_mock_dialogue_analysis` (gemini_service.py lines
437-466): `fuel` counts the remaining iterations of
`for i in range(num_dialogues)`, `i` the iteration index and `pos` the
running `current_pos`. -/
def mock_dialogues_aux (cs : List Char) (L dl skip : Nat) :
    Nat → Nat → Nat → List DialogueInfo
  | 0, _, _ => []
  | fuel + 1, i, pos =>
    if L ≤ pos + dl then []
    else if L ≤ pos + skip then []
    else
      { text := if pos + skip + dl < L then String.mk ((cs.drop (pos + skip)).take dl)
                else String.mk (cs.drop (pos + skip)),
        character_name := cycle_name (i % 3),
        start_index := pos + skip, end_index := pos + skip + dl,
        confidence := (0.8 : ℚ),
        emotion := some (emo_cycle (i % 4)) }
        :: mock_dialogues_aux cs L dl skip fuel (i + 1) (pos + skip + dl)

/-- `GeminiService._mock_dialogue_analysis` (gemini_service.py lines
428-471); `DialogueInfo.from_dict` of each produced dict is the identity
since every key is present. -/
def mock_dialogue_analysis (text : String) : List DialogueInfo :=
  mock_dialogues_aux text.data text.length (dialogue_length_of text.length)
    (skip_of text.length) (num_dialogues_of text.length) 0 0

/-- `GeminiService.identify_dialogue` (gemini_service.py lines 269-330).
Validation order as in the source: text checks, then the empty-roster
check; the roster is otherwise unused because both the keyed and the
keyless branch call `_mock_dialogue_analysis(text)`. -/
def identify_dialogue (api_key : Option String) (text : String)
    (characters : List CharacterInfo) : Except PyErr (List DialogueInfo) :=
  if text = "" then .error (.valueError .textEmptyGemini)
  else if 1000000 < text.length then .error (.valueError (.textTooLongGemini text.length))
  else if characters = [] then .error (.valueError .charListEmpty)
  else
    match api_key with
    | some _ => .ok (mock_dialogue_analysis text)
    | none => .ok (mock_dialogue_analysis text)

/-- A voice suggestion dict produced by `_mock_voice_suggestions`. -/
structure VoiceSuggestion where
  voice_id : String
  name : String
  pitch : ℚ
  speed : ℚ
  confidence : ℚ
  deriving DecidableEq, Repr

/-- The suggestion list built for one character by
`GeminiService._mock_voice_suggestions` (gemini_service.py lines 485-548):
narrator first, then gender "male" / "female", else the neutral voice. -/
def suggestions_for (c : CharacterInfo) : List VoiceSuggestion :=
  if c.is_narrator then
    [ { voice_id := "narrator_1", name := "Clear Narrator",
        pitch := 0, speed := 1, confidence := (0.95 : ℚ) },
      { voice_id := "narrator_2", name := "Storyteller",
        pitch := -1, speed := (0.9 : ℚ), confidence := (0.9 : ℚ) } ]
  else if c.gender = some "male" then
    [ { voice_id := "male_1", name := "Standard Male",
        pitch := 0, speed := 1, confidence := (0.9 : ℚ) },
      { voice_id := "male_2", name := "Deep Male",
        pitch := -2, speed := (0.95 : ℚ), confidence := (0.85 : ℚ) } ]
  else if c.gender = some "female" then
    [ { voice_id := "female_1", name := "Standard Female",
        pitch := 1, speed := 1, confidence := (0.9 : ℚ) },
      { voice_id := "female_2", name := "Soft Female",
        pitch := 2, speed := (1.05 : ℚ), confidence := (0.85 : ℚ) } ]
  else
    [ { voice_id := "neutral_1", name := "Neutral Voice",
        pitch := 0, speed := 1, confidence := (0.8 : ℚ) } ]

/-- `GeminiService._mock_voice_suggestions` (gemini_service.py lines
473-552): the name-keyed mapping in roster order (the code builds a dict
keyed by `char["name"]` while iterating the list). -/
def mock_voice_suggestions (characters : List CharacterInfo) :
    List (String × List VoiceSuggestion) :=
  characters.map (fun c => (c.name, suggestions_for c))

/-- Validity of a raw `emotion` entry: absent, or a string in the enum
(the branch conditions of the emotion stage of `_process_params`). -/
def emotionEntryOk (params : List (String × PyVal)) : Prop :=
  match params.lookup "emotion" with
  | none => True
  | some (.str e) => e ∈ ["neutral", "happy", "sad", "angry"]
  | some _ => False

/-- The emotion value `_process_params` keeps: the supplied string, or the
default "neutral" when absent. -/
def emotionEntryVal (params : List (String × PyVal)) : String :=
  match params.lookup "emotion" with
  | some (.str e) => e
  | _ => "neutral"

/-- Validity of a raw `emphasis` entry: absent, or a list. -/
def emphasisEntryOk (params : List (String × PyVal)) : Prop :=
  match params.lookup "emphasis" with
  | none => True
  | some (.vlist _) => True
  | some _ => False

/-- The emphasis value `_process_params` keeps: the supplied list, or the
default empty list when absent. -/
def emphasisEntryVal (params : List (String × PyVal)) : List String :=
  match params.lookup "emphasis" with
  | some (.vlist xs) => xs
  | _ => []

/-- The ids of the four seeded voices. -/
def builtinIds : List String := ["voice_1", "voice_2", "voice_3", "voice_4"]

/-- An id is sound for a catalog of size `n` when it is a built-in id or a
custom id minted with a counter value at most `n`. -/
def goodId (n : Nat) (s : String) : Prop :=
  s ∈ builtinIds ∨ ∃ (b : String) (k : Nat), k ≤ n ∧ s = mkCustomId b k

/-- Catalog invariant: the voice ids are pairwise distinct and every id is
sound for the current catalog size. -/
def catalogInv (voices : List Voice) : Prop :=
  (voices.map (fun v => v.id)).Nodup ∧ ∀ v ∈ voices, goodId voices.length v.id

/-- A 25,000-character text for the fallback-roster scenario. -/
def text25k : String := String.mk (List.replicate 25000 'a')

/-- A 27-character text on which the mock dialogue loop overruns the end
of the text. -/
def text27 : String := String.mk (List.replicate 27 'a')

/-- A 100-character text producing three mock dialogue spans. -/
def text100 : String := String.mk (List.replicate 100 'a')

/-- A roster consisting of a single character named Alice; no name produced
by the mock dialogue analysis matches it. -/
def alice : CharacterInfo :=
  { name := "Alice", description := "", dialogue_count := 0, confidence := 0,
    is_narrator := false, character_traits := [], gender := none, age := none,
    speaking_style := none, voice_suggestions := [] }

/-- C1: for every raw parameter mapping whose pitch is numeric in
[-10, 10] and whose speed is numeric in [0.5, 2], `_process_params`
returns those values unchanged (with the valid-or-absent emotion and
emphasis entries handled as the code does); with all four keys absent it
returns the defaults pitch 0, speed 1, emotion "neutral", emphasis [];
a numeric pitch outside [-10, 10] fails with the pitch-range ValueError,
and a numeric speed outside [0.5, 2] fails with some parameter
ValueError (the pitch error when pitch is also invalid). -/
theorem param_validator_normalize :
    (∀ (params : List (String × PyVal)) (p s : ℚ),
      params.lookup "pitch" = some (.num p) → -10 ≤ p → p ≤ 10 →
      params.lookup "speed" = some (.num s) → 1/2 ≤ s → s ≤ 2 →
      emotionEntryOk params → emphasisEntryOk params →
      process_params params =
        .ok { pitch := p, speed := s, emotion := emotionEntryVal params,
              emphasis := emphasisEntryVal params }) ∧
    (∀ params : List (String × PyVal),
      params.lookup "pitch" = none → params.lookup "speed" = none →
      params.lookup "emotion" = none → params.lookup "emphasis" = none →
      process_params params =
        .ok { pitch := 0, speed := 1, emotion := "neutral", emphasis := [] }) ∧
    (∀ (params : List (String × PyVal)) (p : ℚ),
      params.lookup "pitch" = some (.num p) → (p < -10 ∨ 10 < p) →
      process_params params = .error (.valueError .pitchOutOfRange)) ∧
    (∀ (params : List (String × PyVal)) (s : ℚ),
      params.lookup "speed" = some (.num s) → (s < 1/2 ∨ 2 < s) →
      ∃ m, process_params params = .error (.valueError m)) := by
  refine ⟨?_, ?_, ?_, ?_⟩
  · intro params p s hp hpl hpu hs hsl hsu hemo hemp
    simp only [process_params, hp]
    rw [if_neg (by push_neg; exact ⟨hpl, hpu⟩)]
    simp only [process_params_speed, hs]
    rw [if_neg (by push_neg; refine ⟨?_, hsu⟩; rw [Rat.mkRat_eq_div]; push_cast; exact hsl)]
    cases he : params.lookup "emotion" with
    | none =>
        simp only [emotionEntryOk, he] at hemo
        simp only [process_params_emotion, emotionEntryVal, he]
        cases hx : params.lookup "emphasis" with
        | none => simp only [process_params_emphasis, emphasisEntryVal, hx]
        | some v =>
            simp only [emphasisEntryOk, hx] at hemp
            cases v with
            | vlist xs => simp only [process_params_emphasis, emphasisEntryVal, hx]
            | num q => exact absurd hemp (by simp)
            | str s2 => exact absurd hemp (by simp)
            | other => exact absurd hemp (by simp)
    | some v =>
        simp only [emotionEntryOk, he] at hemo
        cases v with
        | str e =>
            simp only [process_params_emotion, emotionEntryVal, he]
            rw [if_pos hemo]
            cases hx : params.lookup "emphasis" with
            | none => simp only [process_params_emphasis, emphasisEntryVal, hx]
            | some v2 =>
                simp only [emphasisEntryOk, hx] at hemp
                cases v2 with
                | vlist xs => simp only [process_params_emphasis, emphasisEntryVal, hx]
                | num q => exact absurd hemp (by simp)
                | str s2 => exact absurd hemp (by simp)
                | other => exact absurd hemp (by simp)
        | num q => exact absurd hemo (by simp)
        | vlist xs => exact absurd hemo (by simp)
        | other => exact absurd hemo (by simp)
  · intro params hp hs he hx
    simp only [process_params, process_params_speed, process_params_emotion,
      process_params_emphasis, hp, hs, he, hx]
  · intro params p hp hout
    simp only [process_params, hp]
    rw [if_pos hout]
  · intro params s hs hout
    have hout2 : s < mkRat 1 2 ∨ 2 < s := by
      rw [Rat.mkRat_eq_div]; push_cast; exact hout
    have hsp : process_params_speed params 0 = .error (.valueError .speedOutOfRange) := by
      simp only [process_params_speed, hs]
      rw [if_pos hout2]
    cases hp : params.lookup "pitch" with
    | none => exact ⟨.speedOutOfRange, by simp only [process_params, hp]; exact hsp⟩
    | some v =>
        cases v with
        | num p =>
            by_cases hcond : p < -10 ∨ 10 < p
            · refine ⟨.pitchOutOfRange, ?_⟩
              simp only [process_params, hp]
              rw [if_pos hcond]
            · refine ⟨.speedOutOfRange, ?_⟩
              simp only [process_params, hp]
              rw [if_neg hcond]
              simp only [process_params_speed, hs]
              rw [if_pos hout2]
        | str s2 => exact ⟨.pitchNotNumber, by simp only [process_params, hp]⟩
        | vlist xs => exact ⟨.pitchNotNumber, by simp only [process_params, hp]⟩
        | other => exact ⟨.pitchNotNumber, by simp only [process_params, hp]⟩

/-- Witness for C1: a mapping with pitch 5 and speed 3/2 is returned
unchanged, with emotion and emphasis defaulted. -/
theorem param_validator_normalize_witness :
    process_params [("pitch", .num 5), ("speed", .num (3/2))] =
      .ok { pitch := 5, speed := 3/2, emotion := "neutral", emphasis := [] } :=
  param_validator_normalize.1 [("pitch", .num 5), ("speed", .num (3/2))] 5 (3/2)
    rfl (by norm_num) (by norm_num) rfl (by norm_num) (by norm_num)
    (by trivial) (by trivial)

/-- C2: `generate_audio` evaluated along its gate sequence.  The first
three conjuncts show the gates firing in order (empty text before anything,
over-long text before voice lookup, unresolvable voice before parameter
validation, each with its ValueError).  The fourth conjunct exhibits the
divergence from the claim: with a valid text and voice and an invalid
pitch, the parameter ValueError is swallowed by the blanket
`except Exception` of `generate_audio` and the caller sees
`TTSProcessingError` (the spec's SynthesisError), not the claimed
InvalidParameterError. -/
theorem synthesize_gate_order_eval :
    generate_audio initial_voices "" "nonexistent_voice" [("pitch", .num 99)]
      = .error (.valueError .textEmptyTTS) ∧
    generate_audio initial_voices (String.mk (List.replicate 10001 'a'))
      "nonexistent_voice" [("pitch", .num 99)]
      = .error (.valueError .textTooLongTTS) ∧
    generate_audio initial_voices "Hello" "nonexistent_voice" [("pitch", .num 99)]
      = .error (.valueError (.voiceNotFound "nonexistent_voice")) ∧
    generate_audio initial_voices "Hello" "voice_1" [("pitch", .num 99)]
      = .error (.ttsProcessing .pitchOutOfRange) := by
  refine ⟨rfl, ?_, rfl, rfl⟩
  have hlen : (String.mk (List.replicate 10001 'a')).length = 10001 :=
    List.length_replicate 10001 'a'
  have hne : String.mk (List.replicate 10001 'a') ≠ "" := by
    intro h
    rw [h] at hlen
    simp at hlen
  unfold generate_audio
  rw [if_neg hne, if_neg (by decide), if_pos (by rw [hlen]; decide)]

/-- C3: every successful `generate_audio` call returns duration
`word_count(text) / 150` scaled by `1 / speed` for the normalized speed;
the "Hello world" scenario at speed 1 returns duration 2/150 with format
"mp3"; and an empty text fails with the empty-text ValueError. -/
theorem synthesize_duration :
    (∀ (voices : List Voice) (text voice_id : String)
        (params : List (String × PyVal)) (r : AudioResult) (pp : ProcessedParams),
      generate_audio voices text voice_id params = .ok r →
      process_params params = .ok pp →
      r.duration = (wordCount text : ℚ) / 150 * (1 / pp.speed)) ∧
    (∃ r : AudioResult,
      generate_audio initial_voices "Hello world" "voice_1" [("speed", .num 1)] = .ok r ∧
      r.duration = 2 / 150 ∧ r.format = "mp3") ∧
    (∀ (voices : List Voice) (voice_id : String) (params : List (String × PyVal)),
      generate_audio voices "" voice_id params = .error (.valueError .textEmptyTTS)) := by
  refine ⟨?_, ?_, fun _ _ _ => rfl⟩
  · intro voices text voice_id params r pp h hpp
    unfold generate_audio at h
    split at h
    · simp at h
    split at h
    · simp at h
    split at h
    · simp at h
    split at h
    · simp at h
    split at h
    · simp at h
    next pp2 heq =>
      rw [hpp] at heq
      injection heq with heq
      injection h with h
      rw [← h, heq]
  · exact ⟨{ duration := (wordCount "Hello world" : ℚ) / 150 * (1 / 1),
             format := "mp3", sample_rate := 24000, text_length := 11,
             voice_id := "voice_1",
             parameters := { pitch := 0, speed := 1, emotion := "neutral",
                             emphasis := [] } },
           rfl, by norm_num [show wordCount "Hello world" = 2 from rfl], rfl⟩

/-- Witness for C3: the duration formula instantiated on the
"Hello world" scenario through the general conjunct. -/
theorem synthesize_duration_witness :
    ∃ (r : AudioResult) (pp : ProcessedParams),
      generate_audio initial_voices "Hello world" "voice_1" [("speed", .num 1)] = .ok r ∧
      process_params [("speed", .num 1)] = .ok pp ∧
      r.duration = (wordCount "Hello world" : ℚ) / 150 * (1 / pp.speed) :=
  ⟨{ duration := (wordCount "Hello world" : ℚ) / 150 * (1 / 1),
     format := "mp3", sample_rate := 24000, text_length := 11,
     voice_id := "voice_1",
     parameters := { pitch := 0, speed := 1, emotion := "neutral", emphasis := [] } },
   { pitch := 0, speed := 1, emotion := "neutral", emphasis := [] },
   rfl, rfl,
   synthesize_duration.1 initial_voices "Hello world" "voice_1"
     [("speed", .num 1)] _ _ rfl rfl⟩

/-- C4: on every non-empty text of length at most 1,000,000 with no
provider configured, `identify_characters` returns exactly
`min(max(2, len // 10000), 10)` characters; the character at index 0 and
only that character is the narrator, its dialogue count is
`(len // 500) * 3`, every other character gets `(len // 500) * 1`, so the
narrator's count is three times each other character's. -/
theorem char_roster_fallback (text : String) (h1 : text ≠ "")
    (h2 : text.length ≤ 1000000) :
    ∃ cs, identify_characters none text = .ok cs ∧
      cs.length = min (max 2 (text.length / 10000)) 10 ∧
      (∀ (i : Nat) (c : CharacterInfo), cs[i]? = some c →
        (c.is_narrator = true ↔ i = 0) ∧
        c.dialogue_count = (text.length / 500) * (if i = 0 then 3 else 1)) ∧
      (∀ (i : Nat) (c0 c : CharacterInfo), cs[0]? = some c0 → cs[i]? = some c →
        i ≠ 0 → c0.dialogue_count = 3 * c.dialogue_count) := by
  have hmain : ∀ (i : Nat) (c : CharacterInfo),
      (mock_character_analysis text.length)[i]? = some c →
      (c.is_narrator = true ↔ i = 0) ∧
      c.dialogue_count = (text.length / 500) * (if i = 0 then 3 else 1) := by
    intro i c hc
    unfold mock_character_analysis at hc
    rw [List.getElem?_map] at hc
    cases hr : (List.range (min (max 2 (text.length / 10000)) 10))[i]? with
    | none => rw [hr] at hc; simp at hc
    | some j =>
        rw [hr] at hc
        have hc : mock_char text.length j = c := by simpa using hc
        have hj : j = i := by
          have hlen : i < (List.range (min (max 2 (text.length / 10000)) 10)).length := by
            by_contra hcon
            rw [List.getElem?_eq_none (by omega)] at hr
            exact Option.noConfusion hr
          rw [List.getElem?_eq_getElem hlen] at hr
          injection hr with hr
          rw [← hr, List.getElem_range]
        subst hj
        subst hc
        by_cases hz : j = 0
        · subst hz
          unfold mock_char
          simp
        · unfold mock_char
          rw [if_neg hz, if_neg hz]
          simp [hz]
  refine ⟨mock_character_analysis text.length, ?_, ?_, hmain, ?_⟩
  · unfold identify_characters
    rw [if_neg h1, if_neg (by omega)]
  · unfold mock_character_analysis
    simp
  · intro i c0 c h0 hi hne
    obtain ⟨_, hd0⟩ := hmain 0 c0 h0
    obtain ⟨_, hdi⟩ := hmain i c hi
    rw [hd0, hdi, if_pos rfl, if_neg hne]
    ring

/-- Witness for C4: the 25,000-character scenario yields a roster of
length 2 whose first entry is the narrator with triple dialogue count. -/
theorem char_roster_fallback_witness :
    ∃ cs, identify_characters none text25k = .ok cs ∧
      cs.length = 2 ∧
      ∃ c0 c1, cs[0]? = some c0 ∧ cs[1]? = some c1 ∧
        c0.is_narrator = true ∧ c1.is_narrator = false ∧
        c0.dialogue_count = 3 * c1.dialogue_count := by
  have hL : text25k.length = 25000 := List.length_replicate 25000 'a'
  obtain ⟨cs, hok, hlen, hmain, h3⟩ :=
    char_roster_fallback text25k
      (by intro h; rw [h] at hL; simp at hL)
      (by rw [hL]; norm_num)
  rw [hL] at hlen
  norm_num at hlen
  cases cs with
  | nil => simp at hlen
  | cons c0 tl =>
    cases tl with
    | nil => simp at hlen
    | cons c1 tl2 =>
      cases tl2 with
      | cons x tl3 => simp at hlen
      | nil =>
          have h0 : ([c0, c1] : List CharacterInfo)[0]? = some c0 := rfl
          have h1 : ([c0, c1] : List CharacterInfo)[1]? = some c1 := rfl
          obtain ⟨hn0, _⟩ := hmain 0 c0 h0
          obtain ⟨hn1, _⟩ := hmain 1 c1 h1
          refine ⟨[c0, c1], hok, by simp, c0, c1, h0, h1, hn0.mpr rfl, ?_, ?_⟩
          · cases hb : c1.is_narrator with
            | false => rfl
            | true => exact absurd (hn1.mp hb) (by omega)
          · exact h3 1 c0 c1 h0 h1 (by omega)

/-- Helper: a successful `identify_dialogue` always returns exactly the
mock dialogue analysis of the text. -/
theorem identify_dialogue_ok_inv (api_key : Option String) (text : String)
    (chars : List CharacterInfo) (ds : List DialogueInfo)
    (h : identify_dialogue api_key text chars = .ok ds) :
    ds = mock_dialogue_analysis text := by
  unfold identify_dialogue at h
  split at h
  · simp at h
  split at h
  · simp at h
  split at h
  · simp at h
  split at h
  all_goals injection h with h; exact h.symm

/-- Helper: `identify_dialogue` succeeds with the mock analysis whenever
the three input gates pass. -/
theorem identify_dialogue_ok (api_key : Option String) (text : String)
    (chars : List CharacterInfo) (h1 : text ≠ "") (h2 : text.length ≤ 1000000)
    (h3 : chars ≠ []) :
    identify_dialogue api_key text chars = .ok (mock_dialogue_analysis text) := by
  unfold identify_dialogue
  rw [if_neg h1, if_neg (by omega), if_neg h3]
  cases api_key <;> rfl

/-- Helper: every span the mock dialogue loop emits from position `pos`
starts at or after `pos + skip`, ends exactly `dl` after its start, and
starts strictly inside the text. -/
theorem mock_dialogues_aux_mem (cs : List Char) (L dl skip : Nat) :
    ∀ (fuel i pos : Nat) (d : DialogueInfo),
      d ∈ mock_dialogues_aux cs L dl skip fuel i pos →
      pos + skip ≤ d.start_index ∧ d.end_index = d.start_index + dl ∧
        d.start_index < L := by
  intro fuel
  induction fuel with
  | zero => intro i pos d hd; simp [mock_dialogues_aux] at hd
  | succ n ih =>
      intro i pos d hd
      unfold mock_dialogues_aux at hd
      split at hd
      · simp at hd
      split at hd
      · simp at hd
      next hg1 hg2 =>
        rcases List.mem_cons.mp hd with h | h
        · subst h
          exact ⟨le_refl _, rfl, by show pos + skip < L; omega⟩
        · obtain ⟨ha, hb, hc⟩ := ih (i + 1) (pos + skip + dl) d h
          exact ⟨by omega, hb, hc⟩

/-- Helper: the spans the mock dialogue loop emits are chained — each one
ends no later than the next begins. -/
theorem mock_dialogues_aux_chain (cs : List Char) (L dl skip : Nat) :
    ∀ (fuel i pos : Nat),
      List.Chain' (fun a b => a.end_index ≤ b.start_index)
        (mock_dialogues_aux cs L dl skip fuel i pos) := by
  intro fuel
  induction fuel with
  | zero => intro i pos; simp [mock_dialogues_aux]
  | succ n ih =>
      intro i pos
      unfold mock_dialogues_aux
      split
      · simp
      split
      · simp
      refine List.chain'_cons'.mpr ⟨?_, ih (i + 1) (pos + skip + dl)⟩
      intro y hy
      obtain ⟨ha, _, _⟩ :=
        mock_dialogues_aux_mem cs L dl skip n (i + 1) (pos + skip + dl) y
          (List.mem_of_mem_head? hy)
      show pos + skip + dl ≤ y.start_index
      omega

/-- Helper: the `j`-th span emitted with loop counter starting at `i` is
named by the fixed three-name cycle at `(i + j) % 3`. -/
theorem mock_dialogues_aux_names (cs : List Char) (L dl skip : Nat) :
    ∀ (fuel i pos j : Nat) (d : DialogueInfo),
      (mock_dialogues_aux cs L dl skip fuel i pos)[j]? = some d →
      d.character_name = cycle_name ((i + j) % 3) := by
  intro fuel
  induction fuel with
  | zero => intro i pos j d hd; simp [mock_dialogues_aux] at hd
  | succ n ih =>
      intro i pos j d hd
      unfold mock_dialogues_aux at hd
      split at hd
      · simp at hd
      split at hd
      · simp at hd
      cases j with
      | zero =>
          rw [List.getElem?_cons_zero] at hd
          injection hd with hd
          rw [← hd]
          show cycle_name (i % 3) = cycle_name ((i + 0) % 3)
          norm_num
      | succ k =>
          rw [List.getElem?_cons_succ] at hd
          have := ih (i + 1) (pos + skip + dl) k d hd
          rw [this]
          congr 1
          omega

/-- Helper: for a text of length at least 5 the mock dialogue length is
positive (`num_dialogues ≤ L`, so `L // num_dialogues ≥ 1`). -/
theorem dialogue_length_pos (L : Nat) (h : 5 ≤ L) :
    1 ≤ dialogue_length_of L := by
  unfold dialogue_length_of num_dialogues_of
  have hq : L / 5000 ≤ L := Nat.div_le_self _ _
  have hn : min (max 5 (L / 5000)) 50 ≤ L := by omega
  have hpos : 0 < min (max 5 (L / 5000)) 50 := by omega
  have h1 : 1 ≤ L / min (max 5 (L / 5000)) 50 :=
    (Nat.one_le_div_iff hpos).mpr hn
  omega

/-- C5 counterexample: on a 27-character text the mock attribution emits a
final span (23, 28) whose `end_index` exceeds the text length 27, so the
claimed bound `start_index < end_index ≤ len(text)` fails as stated. -/
theorem attribute_span_bounds_cex :
    ∃ ds, identify_dialogue none text27 [alice] = .ok ds ∧
      ¬ (∀ d ∈ ds, d.start_index < d.end_index ∧ d.end_index ≤ text27.length) :=
  ⟨mock_dialogue_analysis text27,
   identify_dialogue_ok none text27 [alice] (by decide) (by decide) (by decide),
   by decide⟩

/-- C5 amended: every span returned by `identify_dialogue` satisfies
`start_index ≤ end_index = start_index + dialogue_length` with
`start_index < len(text)` (the end may overrun the text length by up to
`dialogue_length - 1`); the spans are ordered with each end at most the
next start, hence sorted by `start_index` and pairwise non-overlapping;
and for texts of length at least 5 `start_index < end_index` is strict. -/
theorem attribute_span_invariants (text : String) (chars : List CharacterInfo)
    (ds : List DialogueInfo) (h : identify_dialogue none text chars = .ok ds) :
    (∀ d ∈ ds, d.start_index ≤ d.end_index ∧ d.start_index < text.length ∧
      d.end_index = d.start_index + dialogue_length_of text.length) ∧
    List.Chain' (fun a b => a.end_index ≤ b.start_index) ds ∧
    (5 ≤ text.length → ∀ d ∈ ds, d.start_index < d.end_index) := by
  have hds := identify_dialogue_ok_inv none text chars ds h
  subst hds
  unfold mock_dialogue_analysis
  refine ⟨?_, mock_dialogues_aux_chain _ _ _ _ _ _ _, ?_⟩
  · intro d hd
    obtain ⟨ha, hb, hc⟩ := mock_dialogues_aux_mem _ _ _ _ _ _ _ d hd
    exact ⟨by omega, hc, hb⟩
  · intro h5 d hd
    obtain ⟨ha, hb, hc⟩ := mock_dialogues_aux_mem _ _ _ _ _ _ _ d hd
    have := dialogue_length_pos text.length h5
    omega

/-- Witness for the amended C5, instantiated on the 27-character text. -/
theorem attribute_span_invariants_witness :
    (∀ d ∈ mock_dialogue_analysis text27,
      d.start_index ≤ d.end_index ∧ d.start_index < text27.length ∧
      d.end_index = d.start_index + dialogue_length_of text27.length) ∧
    List.Chain' (fun a b => a.end_index ≤ b.start_index)
      (mock_dialogue_analysis text27) ∧
    (5 ≤ text27.length → ∀ d ∈ mock_dialogue_analysis text27,
      d.start_index < d.end_index) :=
  attribute_span_invariants text27 [alice] (mock_dialogue_analysis text27)
    (identify_dialogue_ok none text27 [alice] (by decide) (by decide) (by decide))

/-- C6 counterexample: with the one-entry roster [Alice] on a 100-character
text, `identify_dialogue` succeeds, produces spans, and every produced
`character_name` matches no roster entry — no AttributionError is raised
for the unresolvable names, contradicting both the resolution guarantee
and the claimed failure condition. -/
theorem attribute_roster_resolution_cex :
    ∃ ds, identify_dialogue none text100 [alice] = .ok ds ∧ ds ≠ [] ∧
      ∀ d ∈ ds, ∀ c ∈ [alice], d.character_name ≠ c.name :=
  ⟨mock_dialogue_analysis text100,
   identify_dialogue_ok none text100 [alice] (by decide) (by decide) (by decide),
   by decide, by decide⟩

/-- C6 amended: in fallback mode the `j`-th produced span is named by the
fixed cycle Narrator / Character 1 / Character 2 at `j % 3`, independent of
the roster's contents (no roster-membership check is performed), and
`identify_dialogue` fails with the empty-roster ValueError exactly when the
roster is empty (for texts passing the text gates). -/
theorem attribute_name_cycle :
    (∀ (text : String) (chars : List CharacterInfo) (ds : List DialogueInfo),
      identify_dialogue none text chars = .ok ds →
      ∀ (j : Nat) (d : DialogueInfo), ds[j]? = some d →
        d.character_name = cycle_name (j % 3) ∧
        d.character_name ∈ ["Narrator", "Character 1", "Character 2"]) ∧
    (∀ text : String, text ≠ "" → text.length ≤ 1000000 →
      identify_dialogue none text [] = .error (.valueError .charListEmpty)) := by
  constructor
  · intro text chars ds h j d hd
    have hds := identify_dialogue_ok_inv none text chars ds h
    subst hds
    unfold mock_dialogue_analysis at hd
    have hname := mock_dialogues_aux_names _ _ _ _ _ 0 0 j d hd
    rw [Nat.zero_add] at hname
    refine ⟨hname, ?_⟩
    rw [hname]
    have e0 : cycle_name 0 = "Narrator" := rfl
    have e1 : cycle_name 1 = "Character 1" := rfl
    have e2 : cycle_name 2 = "Character 2" := rfl
    have h3 : j % 3 = 0 ∨ j % 3 = 1 ∨ j % 3 = 2 := by omega
    rcases h3 with h3 | h3 | h3 <;> rw [h3] <;> simp [e0, e1, e2]
  · intro text h1 h2
    unfold identify_dialogue
    rw [if_neg h1, if_neg (by omega), if_pos rfl]

/-- Witness for the amended C6: the first span on the 100-character text is
named "Narrator", and the empty roster fails with the ValueError. -/
theorem attribute_name_cycle_witness :
    ∃ ds d, identify_dialogue none text100 [alice] = .ok ds ∧ ds[0]? = some d ∧
      d.character_name = cycle_name (0 % 3) ∧
      d.character_name ∈ ["Narrator", "Character 1", "Character 2"] ∧
      identify_dialogue none "x" [] = .error (.valueError .charListEmpty) := by
  have hok := identify_dialogue_ok none text100 [alice] (by decide) (by decide) (by decide)
  have hs : (mock_dialogue_analysis text100)[0]?.isSome = true := by decide
  obtain ⟨d, hd⟩ := Option.isSome_iff_exists.mp hs
  obtain ⟨hn, hmem⟩ := attribute_name_cycle.1 text100 [alice] _ hok 0 d hd
  exact ⟨_, d, hok, hd, hn, hmem,
    attribute_name_cycle.2 "x" (by decide) (by decide)⟩

/-- C10: in fallback mode the dialogue spans are a function of the input
text alone — any two non-empty rosters yield identical results — and every
produced character name is drawn from the fixed set Narrator /
Character 1 / Character 2 independent of the roster. -/
theorem attribute_roster_independence :
    (∀ (text : String) (c1 c2 : List CharacterInfo), c1 ≠ [] → c2 ≠ [] →
      identify_dialogue none text c1 = identify_dialogue none text c2) ∧
    (∀ (text : String) (chars : List CharacterInfo) (ds : List DialogueInfo),
      identify_dialogue none text chars = .ok ds →
      ∀ d ∈ ds, d.character_name ∈ ["Narrator", "Character 1", "Character 2"]) := by
  constructor
  · intro text c1 c2 h1 h2
    unfold identify_dialogue
    rw [if_neg h1, if_neg h2]
  · intro text chars ds h d hd
    have hds := identify_dialogue_ok_inv none text chars ds h
    subst hds
    obtain ⟨j, hj⟩ := List.get_of_mem hd
    have hd2 : (mock_dialogue_analysis text)[j.1]? = some d := by
      rw [List.getElem?_eq_getElem j.2]
      rw [← hj]
      rfl
    unfold mock_dialogue_analysis at hd2
    have hname := mock_dialogues_aux_names _ _ _ _ _ 0 0 j.1 d hd2
    rw [Nat.zero_add] at hname
    rw [hname]
    have e0 : cycle_name 0 = "Narrator" := rfl
    have e1 : cycle_name 1 = "Character 1" := rfl
    have e2 : cycle_name 2 = "Character 2" := rfl
    have h3 : j.1 % 3 = 0 ∨ j.1 % 3 = 1 ∨ j.1 % 3 = 2 := by omega
    rcases h3 with h3 | h3 | h3 <;> rw [h3] <;> simp [e0, e1, e2]

/-- Witness for C10: the Alice-only roster and a two-entry roster give the
identical dialogue result on the 100-character text. -/
theorem attribute_roster_independence_witness :
    identify_dialogue none text100 [alice] =
      identify_dialogue none text100 [alice, alice] :=
  attribute_roster_independence.1 text100 [alice] [alice, alice]
    (by decide) (by decide)

/-- Helper: `identify_characters` succeeds with the mock roster whenever
the text gates pass, with or without an API key. -/
theorem identify_characters_ok (api_key : Option String) (text : String)
    (h1 : text ≠ "") (h2 : text.length ≤ 1000000) :
    identify_characters api_key text = .ok (mock_character_analysis text.length) := by
  unfold identify_characters
  rw [if_neg h1, if_neg (by omega)]
  cases api_key <;> rfl

/-- C7: `_mock_voice_suggestions` maps each character to the rule-table
list selected by (is_narrator, gender): narrator 0.95/0.90 with the
storyteller variant at pitch -1 speed 0.9; male 0.90/0.85 with the deep
variant at pitch -2 speed 0.95; female 0.90/0.85 with the soft variant at
pitch 2 speed 1.05; otherwise one neutral suggestion at 0.80 — and every
character's list is ranked by non-increasing confidence. -/
theorem voice_recommender_table :
    (∀ chars : List CharacterInfo,
      mock_voice_suggestions chars = chars.map (fun c => (c.name, suggestions_for c))) ∧
    (∀ c : CharacterInfo, c.is_narrator = true →
      suggestions_for c =
        [ { voice_id := "narrator_1", name := "Clear Narrator", pitch := 0,
            speed := 1, confidence := (0.95 : ℚ) },
          { voice_id := "narrator_2", name := "Storyteller", pitch := -1,
            speed := (0.9 : ℚ), confidence := (0.9 : ℚ) } ]) ∧
    (∀ c : CharacterInfo, c.is_narrator = false → c.gender = some "male" →
      suggestions_for c =
        [ { voice_id := "male_1", name := "Standard Male", pitch := 0,
            speed := 1, confidence := (0.9 : ℚ) },
          { voice_id := "male_2", name := "Deep Male", pitch := -2,
            speed := (0.95 : ℚ), confidence := (0.85 : ℚ) } ]) ∧
    (∀ c : CharacterInfo, c.is_narrator = false → c.gender = some "female" →
      suggestions_for c =
        [ { voice_id := "female_1", name := "Standard Female", pitch := 1,
            speed := 1, confidence := (0.9 : ℚ) },
          { voice_id := "female_2", name := "Soft Female", pitch := 2,
            speed := (1.05 : ℚ), confidence := (0.85 : ℚ) } ]) ∧
    (∀ c : CharacterInfo, c.is_narrator = false → c.gender ≠ some "male" →
      c.gender ≠ some "female" →
      suggestions_for c =
        [ { voice_id := "neutral_1", name := "Neutral Voice", pitch := 0,
            speed := 1, confidence := (0.8 : ℚ) } ]) ∧
    (∀ c : CharacterInfo,
      List.Chain' (fun a b => b.confidence ≤ a.confidence) (suggestions_for c)) := by
  refine ⟨fun _ => rfl, ?_, ?_, ?_, ?_, ?_⟩
  · intro c h
    simp [suggestions_for, h]
  · intro c h hg
    simp [suggestions_for, h, hg]
  · intro c h hg
    simp [suggestions_for, h, hg]
  · intro c h hm hf
    simp [suggestions_for, h, hm, hf]
  · intro c
    unfold suggestions_for
    split_ifs <;> simp [List.chain'_cons] <;> norm_num

/-- Witness for C7: the narrator row of the table and the mapping shape on
a one-entry list. -/
theorem voice_recommender_table_witness :
    suggestions_for { alice with is_narrator := true } =
      [ { voice_id := "narrator_1", name := "Clear Narrator", pitch := 0,
          speed := 1, confidence := (0.95 : ℚ) },
        { voice_id := "narrator_2", name := "Storyteller", pitch := -1,
          speed := (0.9 : ℚ), confidence := (0.9 : ℚ) } ] ∧
    mock_voice_suggestions [alice] = [(alice.name, suggestions_for alice)] :=
  ⟨voice_recommender_table.2.1 { alice with is_narrator := true } rfl,
   voice_recommender_table.1 [alice]⟩

/-- C8 counterexample: in no-provider mode `identify_characters` on the
100-character text succeeds with a non-empty roster, no entry of which
carries a "degraded" key in its dict form, and the provider-keyed call
returns the identical value — so the result carries no degraded flag and
the caller cannot distinguish degraded-mode output. -/
theorem degraded_flag_cex :
    ∃ cs, identify_characters none text100 = .ok cs ∧ cs ≠ [] ∧
      (∀ c ∈ cs, "degraded" ∉ CharacterInfo.dictKeys c) ∧
      identify_characters (some "key") text100 = identify_characters none text100 := by
  refine ⟨mock_character_analysis text100.length,
    identify_characters_ok none text100 (by decide) (by decide), ?_, ?_, rfl⟩
  · decide
  · intro c _
    unfold CharacterInfo.dictKeys
    decide

/-- C8 amended: in no-provider mode `identify_characters` returns the bare
mock roster; its dict form has no "degraded" key, and the value equals the
provider-mode result, so degraded mode is not observable in the return
value (the code only logs "[MOCK]"). -/
theorem degraded_flag_absent (text : String) (h1 : text ≠ "")
    (h2 : text.length ≤ 1000000) :
    ∃ cs, identify_characters none text = .ok cs ∧
      (∀ c ∈ cs, "degraded" ∉ CharacterInfo.dictKeys c) ∧
      ∀ k : String, identify_characters (some k) text = identify_characters none text := by
  refine ⟨mock_character_analysis text.length,
    identify_characters_ok none text h1 h2, ?_, ?_⟩
  · intro c _
    unfold CharacterInfo.dictKeys
    decide
  · intro k
    unfold identify_characters
    rw [if_neg h1, if_neg (by omega)]

/-- Witness for the amended C8 on the 100-character text. -/
theorem degraded_flag_absent_witness :
    ∃ cs, identify_characters none text100 = .ok cs ∧
      (∀ c ∈ cs, "degraded" ∉ CharacterInfo.dictKeys c) ∧
      ∀ k : String, identify_characters (some k) text100 =
        identify_characters none text100 :=
  degraded_flag_absent text100 (by decide) (by decide)

/-- Helper: no decimal digit renders as an underscore. -/
theorem digit_ne_us (n : Nat) : digit n ≠ '_' := by
  unfold digit
  split <;> decide

/-- Helper: `digit` is injective below 10. -/
theorem digit_inj : ∀ a < 10, ∀ b < 10, digit a = digit b → a = b := by decide

/-- Helper: the fuel argument of `natReprAux` is irrelevant once it exceeds
the rendered number. -/
theorem natReprAux_irrel : ∀ (n f1 f2 : Nat), n < f1 → n < f2 →
    natReprAux f1 n = natReprAux f2 n := by
  intro n
  induction n using Nat.strong_induction_on with
  | _ n ih =>
      intro f1 f2 h1 h2
      cases f1 with
      | zero => omega
      | succ g1 =>
          cases f2 with
          | zero => omega
          | succ g2 =>
              unfold natReprAux
              by_cases h10 : n < 10
              · rw [if_pos h10, if_pos h10]
              · rw [if_neg h10, if_neg h10]
                congr 1
                have hdiv : n / 10 < n := Nat.div_lt_self (by omega) (by omega)
                exact ih (n / 10) hdiv g1 g2 (by omega) (by omega)

/-- Helper: the defining recurrence of `natRepr`. -/
theorem natRepr_eq (n : Nat) :
    natRepr n = if n < 10 then [digit n] else natRepr (n / 10) ++ [digit (n % 10)] := by
  show natReprAux (n + 1) n = _
  unfold natReprAux
  by_cases h10 : n < 10
  · rw [if_pos h10, if_pos h10]
  · rw [if_neg h10, if_neg h10]
    congr 1
    exact natReprAux_irrel (n / 10) n (n / 10 + 1)
      (Nat.div_lt_self (by omega) (by omega)) (by omega)

/-- Helper: a rendered number is never the empty character list. -/
theorem natRepr_ne_nil (n : Nat) : natRepr n ≠ [] := by
  rw [natRepr_eq]
  split <;> simp

/-- Helper: no underscore occurs in a rendered number. -/
theorem natRepr_no_us (n : Nat) : '_' ∉ natRepr n := by
  induction n using Nat.strong_induction_on with
  | _ n ih =>
      rw [natRepr_eq]
      by_cases h10 : n < 10
      · rw [if_pos h10]
        intro hmem
        rw [List.mem_singleton] at hmem
        exact digit_ne_us n hmem.symm
      · rw [if_neg h10]
        intro hmem
        rcases List.mem_append.mp hmem with h | h
        · exact ih (n / 10) (Nat.div_lt_self (by omega) (by omega)) h
        · rw [List.mem_singleton] at h
          exact digit_ne_us (n % 10) h.symm

/-- Helper: decimal rendering is injective. -/
theorem natRepr_inj : ∀ (a b : Nat), natRepr a = natRepr b → a = b := by
  intro a
  induction a using Nat.strong_induction_on with
  | _ a ih =>
      intro b h
      rw [natRepr_eq a, natRepr_eq b] at h
      by_cases ha : a < 10 <;> by_cases hb : b < 10
      · rw [if_pos ha, if_pos hb] at h
        injection h with h
        exact digit_inj a ha b hb h
      · rw [if_pos ha, if_neg hb] at h
        exfalso
        have hlen := congrArg List.length h
        rw [List.length_append] at hlen
        simp only [List.length_cons, List.length_nil] at hlen
        have hne : (natRepr (b / 10)).length ≠ 0 :=
          fun h0 => natRepr_ne_nil (b / 10) (List.length_eq_zero.mp h0)
        omega
      · rw [if_neg ha, if_pos hb] at h
        exfalso
        have hlen := congrArg List.length h
        rw [List.length_append] at hlen
        simp only [List.length_cons, List.length_nil] at hlen
        have hne : (natRepr (a / 10)).length ≠ 0 :=
          fun h0 => natRepr_ne_nil (a / 10) (List.length_eq_zero.mp h0)
        omega
      · rw [if_neg ha, if_neg hb] at h
        obtain ⟨h1, h2⟩ := List.append_inj' h rfl
        injection h2 with h2
        have hmod : a % 10 = b % 10 :=
          digit_inj (a % 10) (Nat.mod_lt _ (by omega)) (b % 10)
            (Nat.mod_lt _ (by omega)) h2
        have hdiv : a / 10 = b / 10 :=
          ih (a / 10) (Nat.div_lt_self (by omega) (by omega)) (b / 10) h1
        omega

/-- Helper: the segment after the last separator is determined — if two
underscore-separated lists agree and neither tail contains an underscore,
the tails agree. -/
theorem sep_tail_inj : ∀ (l1 l2 r1 r2 : List Char), '_' ∉ r1 → '_' ∉ r2 →
    l1 ++ '_' :: r1 = l2 ++ '_' :: r2 → r1 = r2 := by
  intro l1
  induction l1 with
  | nil =>
      intro l2 r1 r2 h1 h2 h
      cases l2 with
      | nil => simpa using h
      | cons y ys =>
          simp only [List.nil_append, List.cons_append] at h
          injection h with hy hr
          rw [hr] at h1
          exact absurd (by simp) h1
  | cons x xs ih =>
      intro l2 r1 r2 h1 h2 h
      cases l2 with
      | nil =>
          simp only [List.nil_append, List.cons_append] at h
          injection h with hy hr
          rw [← hr] at h2
          exact absurd (by simp) h2
      | cons y ys =>
          simp only [List.cons_append] at h
          injection h with hxy hrest
          exact ih ys r1 r2 h1 h2 hrest

/-- Helper: `String` equality follows from equality of the data lists. -/
theorem str_data_inj {a b : String} (h : a.data = b.data) : a = b := by
  cases a
  cases b
  exact congrArg String.mk h

/-- Helper: the counter embedded in a minted custom id is recoverable — two
equal custom ids were minted with the same counter. -/
theorem mkCustomId_inj_counter (b1 b2 : String) (k1 k2 : Nat)
    (h : mkCustomId b1 k1 = mkCustomId b2 k2) : k1 = k2 := by
  have hd : "custom_".data ++ (b1.data ++ '_' :: natRepr k1)
      = "custom_".data ++ (b2.data ++ '_' :: natRepr k2) := by
    have h2 := congrArg String.data h
    simpa [mkCustomId, List.append_assoc] using h2
  have h3 := List.append_cancel_left hd
  exact natRepr_inj k1 k2
    (sep_tail_inj b1.data b2.data _ _ (natRepr_no_us k1) (natRepr_no_us k2) h3)

/-- Helper: a minted custom id never collides with a built-in id. -/
theorem mkCustomId_ne_builtin (b : String) (k : Nat) (v : String)
    (hv : v ∈ builtinIds) : mkCustomId b k ≠ v := by
  intro h
  have hd := congrArg String.data h
  unfold builtinIds at hv
  fin_cases hv <;> simp [mkCustomId] at hd

/-- Helper: under the catalog invariant the freshly minted id is absent
from the catalog. -/
theorem new_id_fresh (voices : List Voice) (voice_id : String)
    (hinv : catalogInv voices) :
    mkCustomId voice_id (voices.length + 1) ∉ voices.map (fun v => v.id) := by
  intro hmem
  obtain ⟨v, hv, hid⟩ := List.mem_map.mp hmem
  rcases hinv.2 v hv with hb | ⟨b, k, hk, heq⟩
  · exact mkCustomId_ne_builtin voice_id (voices.length + 1) v.id hb hid.symm
  · have hkk : k = voices.length + 1 :=
      mkCustomId_inj_counter b voice_id k (voices.length + 1) (heq ▸ hid)
    omega

/-- Helper: the catalog invariant holds for the seeded catalog. -/
theorem initial_catalogInv : catalogInv initial_voices := by
  constructor
  · decide
  · intro v hv
    left
    fin_cases hv <;> decide

/-- Helper: `customize_voice` preserves the catalog invariant (both on
failure, where the catalog is unchanged, and on success, where one fresh
voice is appended). -/
theorem customize_preserves_inv (voices : List Voice) (voice_id : String)
    (customizations : List (String × PyVal)) (hinv : catalogInv voices) :
    catalogInv (customize_voice voices voice_id customizations).2 := by
  unfold customize_voice
  split
  · exact hinv
  split
  · exact hinv
  split
  · exact hinv
  next base hfind =>
    obtain ⟨hnodup, hgood⟩ := hinv
    have hfresh := new_id_fresh voices voice_id ⟨hnodup, hgood⟩
    constructor
    · rw [List.map_append]
      rw [List.nodup_append]
      refine ⟨hnodup, List.nodup_singleton _, ?_⟩
      intro a ha hb
      rw [List.map_singleton, List.mem_singleton] at hb
      subst hb
      exact hfresh ha
    · intro v hv
      rcases List.mem_append.mp hv with h | h
      · rcases hgood v h with hb | ⟨b, k, hk, heq⟩
        · exact Or.inl hb
        · refine Or.inr ⟨b, k, ?_, heq⟩
          rw [List.length_append]
          simp only [List.length_cons, List.length_nil]
          omega
      · rw [List.mem_singleton] at h
        subst h
        refine Or.inr ⟨voice_id, voices.length + 1, ?_, rfl⟩
        rw [List.length_append]
        simp only [List.length_cons, List.length_nil]
        omega

/-- C9: `customize_voice` fails with the base-not-found ValueError (the
spec's NotFoundError) leaving the catalog unchanged when the base id is
unknown; otherwise it appends exactly one new profile inheriting gender
and language from the base, with `is_custom = true`, `base_voice_id` set
to the base id, and an id distinct from every id already present; and
after any sequence of derive calls starting from the seeded catalog all
voice ids are pairwise distinct. -/
theorem catalog_derive :
    (∀ (voices : List Voice) (voice_id : String) (cs : List (String × PyVal)),
      voice_id ≠ "" → cs ≠ [] →
      voices.find? (fun v => v.id == voice_id) = none →
      customize_voice voices voice_id cs =
        (.error (.valueError (.baseVoiceNotFound voice_id)), voices)) ∧
    (∀ (voices : List Voice) (voice_id : String) (cs : List (String × PyVal))
        (base : Voice),
      voice_id ≠ "" → cs ≠ [] →
      voices.find? (fun v => v.id == voice_id) = some base →
      catalogInv voices →
      ∃ nv : Voice,
        customize_voice voices voice_id cs = (.ok nv.id, voices ++ [nv]) ∧
        nv.gender = base.gender ∧ nv.language = base.language ∧
        nv.is_custom = true ∧ nv.base_voice_id = some voice_id ∧
        nv.id ∉ voices.map (fun v => v.id)) ∧
    (∀ reqs : List (String × List (String × PyVal)),
      ((run_derives reqs).map (fun v => v.id)).Nodup) := by
  refine ⟨?_, ?_, ?_⟩
  · intro voices voice_id cs h1 h2 hfind
    unfold customize_voice
    rw [if_neg h1, if_neg h2, hfind]
  · intro voices voice_id cs base h1 h2 hfind hinv
    refine ⟨{ id := mkCustomId voice_id (voices.length + 1),
              name := match cs.lookup "name" with
                      | some (.str s) => s
                      | some _ => "Customized " ++ base.name
                      | none => "Customized " ++ base.name,
              gender := base.gender, language := base.language,
              is_custom := true, base_voice_id := some voice_id,
              customizations := cs },
            ?_, rfl, rfl, rfl, rfl, new_id_fresh voices voice_id hinv⟩
    unfold customize_voice
    rw [if_neg h1, if_neg h2, hfind]
  · intro reqs
    have hrun : ∀ (rs : List (String × List (String × PyVal))) (init : List Voice),
        catalogInv init →
        catalogInv (rs.foldl (fun vs r => (customize_voice vs r.1 r.2).2) init) := by
      intro rs
      induction rs with
      | nil => intro init h; exact h
      | cons r rest ih =>
          intro init h
          exact ih _ (customize_preserves_inv init r.1 r.2 h)
    exact (hrun reqs initial_voices initial_catalogInv).1

/-- Witness for C9: deriving from voice_1 appends one custom profile with
inherited gender/language and a fresh id; deriving from an unknown id
fails with the base-not-found ValueError and leaves the catalog unchanged. -/
theorem catalog_derive_witness :
    (∃ nv : Voice,
      customize_voice initial_voices "voice_1" [("name", PyVal.str "My Voice")] =
        (.ok nv.id, initial_voices ++ [nv]) ∧
      nv.gender = "female" ∧ nv.language = "en-US" ∧
      nv.is_custom = true ∧ nv.base_voice_id = some "voice_1" ∧
      nv.id ∉ initial_voices.map (fun v => v.id)) ∧
    customize_voice initial_voices "voice_99" [("name", PyVal.str "X")] =
      (.error (.valueError (.baseVoiceNotFound "voice_99")), initial_voices) := by
  constructor
  · obtain ⟨nv, hok, hg, hl, hc, hb, hni⟩ :=
      catalog_derive.2.1 initial_voices "voice_1" [("name", PyVal.str "My Voice")]
        { id := "voice_1", name := "Female 1", gender := "female",
          language := "en-US", is_custom := false, base_voice_id := none,
          customizations := [] }
        (by decide) (by decide) rfl initial_catalogInv
    exact ⟨nv, hok, hg, hl, hc, hb, hni⟩
  · exact catalog_derive.1 initial_voices "voice_99" [("name", PyVal.str "X")]
      (by decide) (by decide) rfl
